import Mathlib

/-!
Shallow embedding of the sqlcup command (an SQL statement generator for
sqlc).  The definitions below translate the program's column parser,
argument parser and statement formatter.  Go strings are modelled as Lean
strings; the handful of functions used from Go's strings and unicode
packages (Split, Cut, Contains, ToLower, ToUpper, TrimSpace, len) are
modelled explicitly below.  ToLower and ToUpper are modelled on the ASCII
range, which covers every input the theorems below use.
-/

namespace Sqlcup

/-- Model of strings.Split with a single-character separator: splits on every
occurrence of the separator; an empty input yields one empty part, as in Go. -/
def splitChar (sep : Char) : List Char → List (List Char)
  | [] => [[]]
  | c :: cs =>
    if c = sep then
      [] :: splitChar sep cs
    else
      match splitChar sep cs with
      | [] => [[c]]
      | h :: t => (c :: h) :: t

def goSplit (s : String) (sep : Char) : List String :=
  (splitChar sep s.data).map String.mk

/-- Model of strings.Cut with a single-character separator: splits around the
first occurrence; when the separator is absent the whole string is the first
component and the second is empty (the found flag is discarded, as the
program discards it). -/
def cutChar (sep : Char) : List Char → List Char × List Char
  | [] => ([], [])
  | c :: cs =>
    if c = sep then
      ([], cs)
    else
      let p := cutChar sep cs
      (c :: p.1, p.2)

def goCut (s : String) (sep : Char) : String × String :=
  let p := cutChar sep s.data
  (String.mk p.1, String.mk p.2)

/-- Model of strings.Contains with a single-character needle. -/
def goContains (s : String) (c : Char) : Bool :=
  s.data.contains c

/-- Model of strings.ToLower (ASCII range). -/
def goToLower (s : String) : String :=
  String.mk (s.data.map Char.toLower)

/-- Model of Go len(string): the number of UTF-8 bytes. -/
def goLen (s : String) : Nat :=
  s.data.foldl (fun n c => n + c.utf8Size) 0

def isGoSpace (c : Char) : Bool :=
  c = ' ' || c = '\t' || c = '\n' || c = '\x0b' || c = '\x0c' || c = '\r'

/-- Model of strings.TrimSpace: drop whitespace from both ends. -/
def goTrimSpace (s : String) : String :=
  String.mk (((s.data.dropWhile isGoSpace).reverse.dropWhile isGoSpace).reverse)

/-- Property-stating helper (not from the source): whether t is a suffix of s. -/
def strEndsWith (s t : String) : Bool :=
  t.data.isSuffixOf s.data

/-- Property-stating helper (not from the source): whether t is a prefix of s. -/
def strStartsWith (s t : String) : Bool :=
  t.data.isPrefixOf s.data

/-- Every error value the program's parsers produce wraps the sentinel
errBadArgument; the message text is carried alongside (messages are
abridged: quoting of the offending input is simplified). -/
inductive GoError where
  | badArgument (msg : String)
deriving Repr, DecidableEq

/-- True exactly when the result is an error; every GoError wraps
errBadArgument, so this is the bad-argument test. -/
def isBadArgumentError {α : Type} : Except GoError α → Bool
  | .error (.badArgument _) => true
  | .ok _ => false

/-- The column record.  The Go field Type is named Typ here because Type is a
Lean keyword. -/
structure column where
  Name : String
  Typ : String
  Constraint : String
  ID : Bool
deriving Repr, DecidableEq

/-- Accumulator of the tag loop in parseSmartColumnDefinition. -/
structure tagState where
  colType : String
  id : Bool
  null : Bool
  unique : Bool
deriving Repr, DecidableEq

def initialTagState : tagState :=
  { colType := "", id := false, null := false, unique := false }

/-- One iteration of the switch over tags in parseSmartColumnDefinition. -/
def applyTag (s : String) (st : tagState) (tag : String) : Except GoError tagState :=
  match tag with
  | "id" => .ok { st with id := true }
  | "null" => .ok { st with null := true }
  | "unique" => .ok { st with unique := true }
  | "float" => .ok { st with colType := "FLOAT" }
  | "double" => .ok { st with colType := "DOUBLE" }
  | "datetime" => .ok { st with colType := "DATETIME" }
  | "text" => .ok { st with colType := "TEXT" }
  | "int" => .ok { st with colType := "INTEGER" }
  | "blob" => .ok { st with colType := "BLOB" }
  | _ => .error (.badArgument ("bad argument: invalid <smart-column>: " ++ s ++ ", unknown <tag> #" ++ tag))

/-- The tag loop of parseSmartColumnDefinition: the first unknown tag aborts. -/
def processTags (s : String) : tagState → List String → Except GoError tagState
  | st, [] => .ok st
  | st, tag :: rest =>
    match applyTag s st tag with
    | .error e => .error e
    | .ok st2 => processTags s st2 rest

def parseSmartColumnDefinition (s : String) : Except GoError column :=
  if s = "@id" then
    .ok { Name := "id", Typ := "INTEGER", Constraint := "PRIMARY KEY", ID := true }
  else
    let nameRest := goCut s '@'
    let name := nameRest.1
    let rest := nameRest.2
    if name = "" then
      .error (.badArgument ("bad argument: invalid <smart-column>: " ++ s ++ ", missing <name>"))
    else
      match processTags s initialTagState (goSplit rest '@') with
      | .error e => .error e
      | .ok st =>
        if st.id then
          if st.unique || st.null then
            .error (.badArgument ("bad argument: invalid <smart-column>: " ++ s ++ ", cannot combine @id with @unique or @null"))
          else
            let colType := if st.colType = "" then "INTEGER" else st.colType
            let constraint := if colType ≠ "INTEGER" then "NOT NULL " ++ "PRIMARY KEY" else "PRIMARY KEY"
            .ok { Name := name, Typ := colType, Constraint := constraint, ID := true }
        else
          if st.colType = "" then
            .error (.badArgument ("bad argument: invalid <smart-column>: " ++ s ++ ", missing column type"))
          else
            let constraint := (if !st.null then " NOT NULL" else "") ++ (if st.unique then " UNIQUE" else "")
            .ok { Name := name, Typ := st.colType, Constraint := goTrimSpace constraint, ID := false }

/-- The plain form of the parser; idColumn is the resolved value of the
id-column flag (default "id"). -/
def parsePlainColumnDefinition (idColumn : String) (s : String) : Except GoError column :=
  match goSplit s ':' with
  | [nm, ty] =>
    if nm = "" then
      .error (.badArgument ("bad argument: invalid <plain-column>: " ++ s))
    else
      .ok { Name := nm, Typ := ty, Constraint := "", ID := goToLower nm == idColumn }
  | [nm, ty, ct] =>
    if nm = "" then
      .error (.badArgument ("bad argument: invalid <plain-column>: " ++ s))
    else
      .ok { Name := nm, Typ := ty, Constraint := ct, ID := goToLower nm == idColumn }
  | _ =>
    .error (.badArgument ("bad argument: invalid <plain-column>: " ++ s))

def parseColumnDefinition (idColumn : String) (s : String) : Except GoError column :=
  let plainColumn := goContains s ':'
  let smartColumn := goContains s '@'
  if plainColumn && smartColumn then
    .error (.badArgument ("bad argument: invalid <column>: " ++ s ++ " contains both plain and smart separators"))
  else if plainColumn then
    parsePlainColumnDefinition idColumn s
  else if smartColumn then
    parseSmartColumnDefinition s
  else
    .error (.badArgument ("bad argument: invalid <column>: " ++ s ++ ", expected <smart-column> or <plain-column>"))

/-- The resolved CLI flags the core consumes. -/
structure cliOptions where
  noExistsClause : Bool
  idColumn : String
  orderBy : String
  noReturningClause : Bool
  only : String
deriving Repr, DecidableEq

/-- The flag defaults declared at the top of the program. -/
def defaultOptions : cliOptions :=
  { noExistsClause := false, idColumn := "id", orderBy := "",
    noReturningClause := false, only := "" }

/-- The outputMode bitmask (a uint8 in the source; values stay below 4, so
plain Nat bit operations model it exactly). -/
def outputSchema : Nat := 1

def outputQueries : Nat := 2

def outputAll : Nat := outputSchema ||| outputQueries

/-- The scaffoldCommandArgs record.  The Go pointer field IDColumn becomes an
Option holding the column value (the record is immutable after parsing, so
sharing is immaterial). -/
structure scaffoldCommandArgs where
  Table : String
  SingularEntity : String
  PluralEntity : String
  IDColumn : Option column
  Columns : List column
  NonIDColumns : List column
  LongestName : Nat
  LongestType : Nat
  NoExistsClause : Bool
  OrderBy : String
  NoReturningClause : Bool
  Output : Nat
deriving Repr, DecidableEq

/-- Model of Go capitalize; Go indexes r[0] unconditionally, which panics
(index out of range) on the empty string — modelled as none. -/
def capitalize (s : String) : Option String :=
  match s.data with
  | [] => none
  | c :: cs => some (String.mk (Char.toUpper c :: cs))

/-- Model of Go upperCamelCase; none propagates the capitalize panic. -/
def upperCamelCase (s : String) : Option String :=
  let parts := goSplit s '_'
  if parts.length = 1 then
    capitalize s
  else
    (parts.mapM capitalize).map (fun ps => String.join ps)

/-- The switch on the only flag that selects the output mode (none models the
bad-argument branch). -/
def onlyOutput : String → Option Nat
  | "schema" => some outputSchema
  | "queries" => some outputQueries
  | "" => some outputAll
  | _ => none

/-- One iteration of the column loop of parseScaffoldCommandArgs. -/
def updateSca (sca : scaffoldCommandArgs) (col : column) : scaffoldCommandArgs :=
  { sca with
    LongestName := if goLen col.Name > sca.LongestName then goLen col.Name else sca.LongestName
    LongestType := if goLen col.Typ > sca.LongestType then goLen col.Typ else sca.LongestType
    Columns := sca.Columns ++ [col]
    IDColumn := if col.ID then some col else sca.IDColumn
    NonIDColumns := if col.ID then sca.NonIDColumns else sca.NonIDColumns ++ [col] }

/-- The column loop of parseScaffoldCommandArgs: the first bad column aborts. -/
def parseColumnsLoop (idColumn : String) :
    scaffoldCommandArgs → List String → Except GoError scaffoldCommandArgs
  | sca, [] => .ok sca
  | sca, arg :: rest =>
    match parseColumnDefinition idColumn arg with
    | .error e => .error e
    | .ok col => parseColumnsLoop idColumn (updateSca sca col) rest

/-- Model of parseScaffoldCommandArgs.  The outer Option models a Go runtime
panic (reachable through capitalize on an empty underscore segment); the
inner Except carries the ordinary bad-argument errors. -/
def parseScaffoldCommandArgs (opts : cliOptions) (args : List String) :
    Option (Except GoError scaffoldCommandArgs) :=
  match args with
  | [] => some (.error (.badArgument "bad argument: missing <name> and <column>"))
  | arg0 :: colArgs =>
    match goSplit arg0 '/' with
    | [sg, pl] =>
      if sg = "" || pl = "" then
        some (.error (.badArgument ("bad argument: invalid <name>: " ++ arg0 ++ ", expected <singular>/<plural>")))
      else
        match upperCamelCase sg, upperCamelCase pl with
        | some se, some pe =>
          let sca : scaffoldCommandArgs :=
            { Table := pl, SingularEntity := se, PluralEntity := pe,
              IDColumn := none, Columns := [], NonIDColumns := [],
              LongestName := 0, LongestType := 0,
              NoExistsClause := opts.noExistsClause, OrderBy := opts.orderBy,
              NoReturningClause := opts.noReturningClause, Output := 0 }
          match onlyOutput opts.only with
          | some m => some (parseColumnsLoop opts.idColumn { sca with Output := sca.Output ||| m } colArgs)
          | none =>
            some (.error (.badArgument ("bad argument: -only " ++ opts.only ++ ", expected schema or queries")))
        | _, _ => none
    | _ =>
      some (.error (.badArgument ("bad argument: invalid <name>: " ++ arg0 ++ ", expected <singular>/<plural>")))

/-- Padding written by the alignment loops of writeSchema. -/
def spaces (n : Nat) : String :=
  String.mk (List.replicate n ' ')

/-- One line of the CREATE TABLE column list (the body of the loop in
writeSchema). -/
def schemaColumnLine (args : scaffoldCommandArgs) (col : column) (isLast : Bool) : String :=
  "  " ++ col.Name ++ " " ++ spaces (args.LongestName - goLen col.Name) ++ col.Typ ++
    (if col.Constraint ≠ "" then spaces (args.LongestType - goLen col.Typ) ++ " " ++ col.Constraint else "") ++
    (if isLast then "" else ",") ++ "\n"

def schemaColumnLines (args : scaffoldCommandArgs) : List column → String
  | [] => ""
  | [c] => schemaColumnLine args c true
  | c :: c2 :: rest => schemaColumnLine args c false ++ schemaColumnLines args (c2 :: rest)

def writeSchema (args : scaffoldCommandArgs) : String :=
  "CREATE TABLE " ++ (if !args.NoExistsClause then "IF NOT EXISTS " else "") ++
    args.Table ++ " (\n" ++ schemaColumnLines args args.Columns ++ ");"

/-- writeGetQuery; the idc parameter is the column the Go code reads through
the non-nil args.IDColumn pointer. -/
def writeGetQuery (args : scaffoldCommandArgs) (idc : column) : String :=
  "-- name: Get" ++ args.SingularEntity ++ " :one\n" ++
    "SELECT * FROM " ++ args.Table ++ "\n" ++
    "WHERE " ++ idc.Name ++ " = ? LIMIT 1;"

def writeListQuery (args : scaffoldCommandArgs) : String :=
  "-- name: List" ++ args.PluralEntity ++ " :many\n" ++
    "SELECT * FROM " ++ args.Table ++
    (if args.OrderBy = "" then ";" else "\nORDER BY " ++ args.OrderBy ++ ";")

/-- The name loop of writeCreateQuery. -/
def createColumnNames : List column → String
  | [] => ""
  | [c] => c.Name ++ "\n"
  | c :: c2 :: rest => c.Name ++ ", " ++ createColumnNames (c2 :: rest)

/-- The placeholder loop of writeCreateQuery. -/
def createPlaceholders : Nat → String
  | 0 => ""
  | 1 => "?\n"
  | n + 2 => "?, " ++ createPlaceholders (n + 1)

def writeCreateQuery (args : scaffoldCommandArgs) : String :=
  "-- name: Create" ++ args.SingularEntity ++ " :one\n" ++
    "INSERT INTO " ++ args.Table ++ " (\n" ++
    "  " ++ createColumnNames args.NonIDColumns ++
    ") VALUES (\n" ++
    "  " ++ createPlaceholders args.NonIDColumns.length ++
    ")\n" ++ "RETURNING *;"

def writeDeleteQuery (args : scaffoldCommandArgs) (idc : column) : String :=
  "-- name: Delete" ++ args.SingularEntity ++ " :exec\n" ++
    "DELETE FROM " ++ args.Table ++ "\n" ++
    "WHERE " ++ idc.Name ++ " = ?;"

/-- The SET line loop of writeUpdateQuery. -/
def updateSetLines : List column → String
  | [] => ""
  | [c] => "  " ++ c.Name ++ " = ?\n"
  | c :: c2 :: rest => "  " ++ c.Name ++ " = ?,\n" ++ updateSetLines (c2 :: rest)

def writeUpdateQuery (args : scaffoldCommandArgs) (idc : column) : String :=
  "-- name: Update" ++ args.SingularEntity ++ " " ++
    (if args.NoReturningClause then ":exec" else ":one") ++ "\n" ++
    "UPDATE " ++ args.Table ++ "\n" ++
    "SET\n" ++ updateSetLines args.NonIDColumns ++
    "WHERE " ++ idc.Name ++ " = ?" ++
    (if !args.NoReturningClause then "\nRETURNING *;" else ";")

/-- The query-block half of scaffoldCommand (the writes guarded by
Output up to outputQueries). -/
def scaffoldQueries (args : scaffoldCommandArgs) : String :=
  if args.Output &&& outputQueries ≠ 0 then
    (match args.IDColumn with
      | some idc => writeGetQuery args idc ++ "\n\n"
      | none => "") ++
    writeListQuery args ++ "\n\n" ++
    writeCreateQuery args ++ "\n" ++
    (match args.IDColumn with
      | some idc => "\n" ++ writeDeleteQuery args idc ++ "\n\n" ++ writeUpdateQuery args idc ++ "\n\n"
      | none => "")
  else ""

/-- The whole text scaffoldCommand prints. -/
def scaffoldCommand (args : scaffoldCommandArgs) : String :=
  (if args.Output &&& outputAll = outputAll then
      "#############################################\n" ++
        "# Add the following to your SQL schema file #\n" ++
        "#############################################\n\n"
    else "") ++
  (if args.Output &&& outputSchema ≠ 0 then writeSchema args ++ "\n\n" else "") ++
  (if args.Output &&& outputAll = outputAll then
      "##############################################\n" ++
        "# Add the following to your SQL queries file #\n" ++
        "##############################################\n\n"
    else "") ++
  scaffoldQueries args

/-- Modelled from the spec wording of the query block (for the refinement
claim about template order): the templates in the fixed order Get, List,
Create, Delete, Update, where Get, Delete and Update are present exactly
when an identifier column exists and List and Create always are. -/
def queryTemplatesSpec (args : scaffoldCommandArgs) : List String :=
  (match args.IDColumn with
    | some idc => [writeGetQuery args idc]
    | none => []) ++
  [writeListQuery args, writeCreateQuery args] ++
  (match args.IDColumn with
    | some idc => [writeDeleteQuery args idc, writeUpdateQuery args idc]
    | none => [])

/-- Spec-side joining of the template list with a separator. -/
def joinTemplates (sep : String) : List String → String
  | [] => ""
  | [t] => t
  | t :: t2 :: rest => t ++ sep ++ joinTemplates sep (t2 :: rest)

deriving instance DecidableEq for Except

/-! Helper lemmas about the string models. -/

theorem goContains_false_iff {s : String} {c : Char} :
    goContains s c = false ↔ c ∉ s.data := by
  simp [goContains, List.contains, List.elem_iff]

theorem goContains_true_iff {s : String} {c : Char} :
    goContains s c = true ↔ c ∈ s.data := by
  simp [goContains, List.contains, List.elem_iff]

theorem splitChar_of_not_mem {sep : Char} :
    ∀ {l : List Char}, sep ∉ l → splitChar sep l = [l] := by
  intro l
  induction l with
  | nil => intro _; rfl
  | cons c cs ih =>
    intro h
    rw [List.mem_cons] at h
    push_neg at h
    have hc : ¬(c = sep) := fun e => h.1 e.symm
    simp [splitChar, hc, ih h.2]

theorem splitChar_append {sep : Char} :
    ∀ {a : List Char} (b : List Char), sep ∉ a →
      splitChar sep (a ++ sep :: b) = a :: splitChar sep b := by
  intro a
  induction a with
  | nil => intro b _; simp [splitChar]
  | cons c cs ih =>
    intro b h
    rw [List.mem_cons] at h
    push_neg at h
    have hc : ¬(c = sep) := fun e => h.1 e.symm
    simp only [List.cons_append, splitChar, if_neg hc, List.append_eq, ih b h.2]

theorem cutChar_append {sep : Char} :
    ∀ {a : List Char} (b : List Char), sep ∉ a →
      cutChar sep (a ++ sep :: b) = (a, b) := by
  intro a
  induction a with
  | nil => intro b _; simp [cutChar]
  | cons c cs ih =>
    intro b h
    rw [List.mem_cons] at h
    push_neg at h
    have hc : ¬(c = sep) := fun e => h.1 e.symm
    simp only [List.cons_append, cutChar, if_neg hc, List.append_eq, ih b h.2]

theorem data_ne_nil_of_ne_empty {s : String} (h : s ≠ "") : s.data ≠ [] := by
  intro hd
  exact h (String.ext hd)

theorem goSplit_two {name ty : String} (h2 : ':' ∉ name.data) (h3 : ':' ∉ ty.data) :
    goSplit (name ++ ":" ++ ty) ':' = [name, ty] := by
  have hd : (name ++ ":" ++ ty).data = name.data ++ ':' :: ty.data := by
    show (name.data ++ [':']) ++ ty.data = _
    rw [List.append_assoc]
    rfl
  rw [goSplit, hd, splitChar_append _ h2, splitChar_of_not_mem h3]
  rfl

theorem goSplit_three {name ty ct : String} (h2 : ':' ∉ name.data) (h3 : ':' ∉ ty.data)
    (h4 : ':' ∉ ct.data) :
    goSplit (name ++ ":" ++ ty ++ ":" ++ ct) ':' = [name, ty, ct] := by
  have hd : (name ++ ":" ++ ty ++ ":" ++ ct).data =
      name.data ++ ':' :: (ty.data ++ ':' :: ct.data) := by
    show (((name.data ++ [':']) ++ ty.data) ++ [':']) ++ ct.data = _
    simp [List.append_assoc]
  rw [goSplit, hd, splitChar_append _ h2, splitChar_append _ h3, splitChar_of_not_mem h4]
  rfl

theorem parseColumnDefinition_plain {idCol s : String}
    (hc : goContains s ':' = true) (ha : goContains s '@' = false) :
    parseColumnDefinition idCol s = parsePlainColumnDefinition idCol s := by
  simp [parseColumnDefinition, hc, ha]

theorem plain_two_ok (idCol name ty : String) (h1 : name ≠ "")
    (hn1 : ':' ∉ name.data) (hn2 : '@' ∉ name.data)
    (ht1 : ':' ∉ ty.data) (ht2 : '@' ∉ ty.data) :
    parseColumnDefinition idCol (name ++ ":" ++ ty) =
      .ok { Name := name, Typ := ty, Constraint := "", ID := goToLower name == idCol } := by
  have hcon : goContains (name ++ ":" ++ ty) ':' = true := by
    rw [goContains_true_iff]
    show ':' ∈ (name.data ++ [':']) ++ ty.data
    simp
  have hat : goContains (name ++ ":" ++ ty) '@' = false := by
    rw [goContains_false_iff]
    show '@' ∉ (name.data ++ [':']) ++ ty.data
    simp [hn2, ht2]
  rw [parseColumnDefinition_plain hcon hat]
  simp [parsePlainColumnDefinition, goSplit_two hn1 ht1, h1]

theorem plain_three_ok (idCol name ty ct : String) (h1 : name ≠ "")
    (hn1 : ':' ∉ name.data) (hn2 : '@' ∉ name.data)
    (ht1 : ':' ∉ ty.data) (ht2 : '@' ∉ ty.data)
    (hc1 : ':' ∉ ct.data) (hc2 : '@' ∉ ct.data) :
    parseColumnDefinition idCol (name ++ ":" ++ ty ++ ":" ++ ct) =
      .ok { Name := name, Typ := ty, Constraint := ct, ID := goToLower name == idCol } := by
  have hcon : goContains (name ++ ":" ++ ty ++ ":" ++ ct) ':' = true := by
    rw [goContains_true_iff]
    show ':' ∈ (((name.data ++ [':']) ++ ty.data) ++ [':']) ++ ct.data
    simp
  have hat : goContains (name ++ ":" ++ ty ++ ":" ++ ct) '@' = false := by
    rw [goContains_false_iff]
    show '@' ∉ (((name.data ++ [':']) ++ ty.data) ++ [':']) ++ ct.data
    simp [hn2, ht2, hc2]
  rw [parseColumnDefinition_plain hcon hat]
  simp [parsePlainColumnDefinition, goSplit_three hn1 ht1 hc1, h1]

/-- Claim C2, counterexample: the user can configure the identifier column
name to "ID" (the -id-column flag is compared verbatim).  The plain input
"ID:INTEGER" has a name equal to that configured name (so certainly equal
under case-insensitive comparison), yet the parser yields ID = false,
because the code lowercases only the column name and compares it verbatim
against the flag value. -/
theorem claim_C2_counterexample :
    parseColumnDefinition "ID" "ID:INTEGER" ≠
      .ok { Name := "ID", Typ := "INTEGER", Constraint := "", ID := true } ∧
    parseColumnDefinition "ID" "ID:INTEGER" =
      .ok { Name := "ID", Typ := "INTEGER", Constraint := "", ID := false } := by
  exact ⟨by decide, by rfl⟩

/-- Claim C2 (amended): for every plain-form input name:ty (resp.
name:ty:ct) whose pieces contain no separator characters and whose name is
non-empty, parseColumnDefinition returns the column with the given name and
type, constraint "" (resp. ct verbatim), and ID true exactly when the
lowercased name equals the configured identifier column name verbatim (for
a lowercase configured name such as the default "id" this is
case-insensitive matching of the name). -/
theorem claim_C2_main (idCol name ty ct : String)
    (h1 : name ≠ "")
    (hn1 : goContains name ':' = false) (hn2 : goContains name '@' = false)
    (ht1 : goContains ty ':' = false) (ht2 : goContains ty '@' = false)
    (hc1 : goContains ct ':' = false) (hc2 : goContains ct '@' = false) :
    parseColumnDefinition idCol (name ++ ":" ++ ty) =
      .ok { Name := name, Typ := ty, Constraint := "", ID := goToLower name == idCol } ∧
    parseColumnDefinition idCol (name ++ ":" ++ ty ++ ":" ++ ct) =
      .ok { Name := name, Typ := ty, Constraint := ct, ID := goToLower name == idCol } := by
  rw [goContains_false_iff] at hn1 hn2 ht1 ht2 hc1 hc2
  exact ⟨plain_two_ok idCol name ty h1 hn1 hn2 ht1 ht2,
    plain_three_ok idCol name ty ct h1 hn1 hn2 ht1 ht2 hc1 hc2⟩

/-- Witness for claim C2: the amended theorem applied at the concrete plain
input a:TEXT with the default identifier column name. -/
theorem claim_C2_witness :
    ("a" : String) ≠ "" ∧ goContains "a" ':' = false ∧
    parseColumnDefinition "id" ("a" ++ ":" ++ "TEXT") =
      .ok { Name := "a", Typ := "TEXT", Constraint := "", ID := goToLower "a" == "id" } :=
  ⟨by decide, by decide,
    (claim_C2_main "id" "a" "TEXT" "x" (by decide) (by decide) (by decide) (by decide)
      (by decide) (by decide) (by decide)).1⟩

/-- Claim C5: parseColumnDefinition rejects with a bad-argument error every
raw string containing both or neither of the separators : and @ (both-or-
neither is exactly when the two containment tests agree), and every
plain-form string whose colon split has fewer than 2 or more than 3 parts
or an empty name part; no column value is produced in these cases (the
result is an error, never ok). -/
theorem claim_C5_main (idCol s : String) :
    (goContains s ':' = goContains s '@' →
      isBadArgumentError (parseColumnDefinition idCol s) = true) ∧
    (goContains s ':' = true → goContains s '@' = false →
      ((goSplit s ':').length < 2 ∨ 3 < (goSplit s ':').length ∨ (goSplit s ':').headD "" = "") →
      isBadArgumentError (parseColumnDefinition idCol s) = true) := by
  constructor
  · intro h
    cases hb : goContains s '@' with
    | true =>
      rw [hb] at h
      simp [parseColumnDefinition, h, hb, isBadArgumentError]
    | false =>
      rw [hb] at h
      simp [parseColumnDefinition, h, hb, isBadArgumentError]
  · intro hc ha hx
    rw [parseColumnDefinition_plain hc ha]
    rcases hsp : goSplit s ':' with _ | ⟨nm, _ | ⟨ty, _ | ⟨ct, rest⟩⟩⟩
    · simp [parsePlainColumnDefinition, hsp, isBadArgumentError]
    · simp [parsePlainColumnDefinition, hsp, isBadArgumentError]
    · rw [hsp] at hx
      simp at hx
      simp [parsePlainColumnDefinition, hsp, hx, isBadArgumentError]
    · cases rest with
      | nil =>
        rw [hsp] at hx
        simp at hx
        simp [parsePlainColumnDefinition, hsp, hx, isBadArgumentError]
      | cons r rs =>
        simp [parsePlainColumnDefinition, hsp, isBadArgumentError]

/-- Witness for claim C5: the theorem applied at a string with both
separators, at one with an empty name part, and at one with four parts. -/
theorem claim_C5_witness :
    isBadArgumentError (parseColumnDefinition "id" "a:b@c") = true ∧
    isBadArgumentError (parseColumnDefinition "id" ":x") = true ∧
    isBadArgumentError (parseColumnDefinition "id" "a:b:c:d") = true :=
  ⟨(claim_C5_main "id" "a:b@c").1 (by decide),
    (claim_C5_main "id" ":x").2 (by decide) (by decide) (by decide),
    (claim_C5_main "id" "a:b:c:d").2 (by decide) (by decide) (by decide)⟩

/-- Claim C10: plain-form inputs with an empty type part (name:) or empty
type and constraint parts (name::) are accepted by the parser with the
empty string as type (and constraint) and no missing-type error, and the
schema formatter renders such a column with an empty type field. -/
theorem claim_C10_main (idCol name : String) (h1 : name ≠ "")
    (h2 : goContains name ':' = false) (h3 : goContains name '@' = false) :
    parseColumnDefinition idCol (name ++ ":") =
      .ok { Name := name, Typ := "", Constraint := "", ID := goToLower name == idCol } ∧
    parseColumnDefinition idCol (name ++ "::") =
      .ok { Name := name, Typ := "", Constraint := "", ID := goToLower name == idCol } ∧
    (match parseScaffoldCommandArgs defaultOptions ["a/b", "a:"] with
      | some (.ok sca) => writeSchema sca
      | _ => "") = "CREATE TABLE IF NOT EXISTS b (\n  a \n);" := by
  rw [goContains_false_iff] at h2 h3
  refine ⟨?_, ?_, by rfl⟩
  · have e1 : name ++ ":" = name ++ ":" ++ "" := (String.append_empty _).symm
    rw [e1]
    exact plain_two_ok idCol name "" h1 h2 h3 (by decide) (by decide)
  · have e2 : name ++ "::" = name ++ ":" ++ "" ++ ":" ++ "" := by
      apply String.ext
      show name.data ++ [':', ':'] = (((name.data ++ [':']) ++ []) ++ [':']) ++ []
      simp
    rw [e2]
    exact plain_three_ok idCol name "" "" h1 h2 h3 (by decide) (by decide) (by decide) (by decide)

/-- Witness for claim C10: the theorem applied at the concrete column a: and
a:: with the default identifier column name. -/
theorem claim_C10_witness :
    ("a" : String) ≠ "" ∧
    parseColumnDefinition "id" ("a" ++ ":") =
      .ok { Name := "a", Typ := "", Constraint := "", ID := goToLower "a" == "id" } :=
  ⟨by decide, (claim_C10_main "id" "a" (by decide) (by decide) (by decide)).1⟩

theorem smart_ne_atid {name : String} (rest : String) (h1 : name ≠ "") (h2 : '@' ∉ name.data) :
    name ++ "@" ++ rest ≠ "@id" := by
  intro he
  have hd : (name.data ++ ['@']) ++ rest.data = ['@', 'i', 'd'] := congrArg String.data he
  cases hnd : name.data with
  | nil => exact data_ne_nil_of_ne_empty h1 hnd
  | cons c cs =>
    rw [hnd] at hd
    simp only [List.cons_append] at hd
    injection hd with hc _
    rw [hnd, hc] at h2
    exact h2 (List.mem_cons_self _ _)

theorem goCut_smart {name rest : String} (h2 : '@' ∉ name.data) :
    goCut (name ++ "@" ++ rest) '@' = (name, rest) := by
  have hd : (name ++ "@" ++ rest).data = name.data ++ '@' :: rest.data := by
    show (name.data ++ ['@']) ++ rest.data = _
    rw [List.append_assoc]
    rfl
  simp [goCut, hd, cutChar_append _ h2]

/-- Claim C3: the literal smart token yields the fixed identifier column,
and every other smart-form input whose processed tag list has the id tag
set and neither unique nor null yields a column whose type defaults to
INTEGER when no type tag was given and whose constraint is PRIMARY KEY,
prefixed with NOT NULL exactly when the resulting type is not INTEGER. -/
theorem claim_C3_main (name rest : String) (st : tagState)
    (h1 : name ≠ "") (h2 : goContains name '@' = false)
    (h3 : processTags (name ++ "@" ++ rest) initialTagState (goSplit rest '@') = .ok st)
    (h4 : st.id = true) (h5 : st.unique = false) (h6 : st.null = false) :
    parseSmartColumnDefinition "@id" =
      .ok { Name := "id", Typ := "INTEGER", Constraint := "PRIMARY KEY", ID := true } ∧
    parseSmartColumnDefinition (name ++ "@" ++ rest) =
      .ok { Name := name,
            Typ := if st.colType = "" then "INTEGER" else st.colType,
            Constraint := if (if st.colType = "" then "INTEGER" else st.colType) ≠ "INTEGER"
              then "NOT NULL " ++ "PRIMARY KEY" else "PRIMARY KEY",
            ID := true } := by
  rw [goContains_false_iff] at h2
  refine ⟨by rfl, ?_⟩
  have hne := smart_ne_atid rest h1 h2
  simp [parseSmartColumnDefinition, if_neg hne, goCut_smart h2, h3, h1, h4, h5, h6]

/-- Witness for claim C3: the theorem applied at the smart input pk@text@id,
yielding a non-INTEGER primary key with the NOT NULL prefixed constraint. -/
theorem claim_C3_witness :
    ("pk" : String) ≠ "" ∧
    parseSmartColumnDefinition ("pk" ++ "@" ++ "text@id") =
      .ok { Name := "pk", Typ := "TEXT", Constraint := "NOT NULL PRIMARY KEY", ID := true } :=
  ⟨by decide, by
    have h := (claim_C3_main "pk" "text@id"
      { colType := "TEXT", id := true, null := false, unique := false }
      (by decide) (by decide) (by decide) (by rfl) (by rfl) (by rfl)).2
    simpa using h⟩

/-- Claim C4: every smart-form input whose processed tag list lacks the id
tag yields a bad-argument error when no type tag set a type, and otherwise
a column whose constraint is NOT NULL unless the null tag is present,
followed by UNIQUE when the unique tag is present, space-joined and
trimmed. -/
theorem claim_C4_main (name rest : String) (st : tagState)
    (h1 : name ≠ "") (h2 : goContains name '@' = false)
    (h3 : processTags (name ++ "@" ++ rest) initialTagState (goSplit rest '@') = .ok st)
    (h4 : st.id = false) :
    (st.colType = "" →
      isBadArgumentError (parseSmartColumnDefinition (name ++ "@" ++ rest)) = true) ∧
    (st.colType ≠ "" →
      parseSmartColumnDefinition (name ++ "@" ++ rest) =
        .ok { Name := name, Typ := st.colType,
              Constraint :=
                if st.null then (if st.unique then "UNIQUE" else "")
                else (if st.unique then "NOT NULL UNIQUE" else "NOT NULL"),
              ID := false }) := by
  rw [goContains_false_iff] at h2
  have hne := smart_ne_atid rest h1 h2
  constructor
  · intro hty
    simp [parseSmartColumnDefinition, if_neg hne, goCut_smart h2, h3, h1, h4, hty,
      isBadArgumentError]
  · intro hty
    simp only [parseSmartColumnDefinition, if_neg hne, goCut_smart h2, h3, h4]
    cases hnull : st.null <;> cases huniq : st.unique <;>
      simp [h1, hty, hnull, huniq] <;> rfl

/-- Witness for claim C4: the theorem applied at the smart input
col@text@unique, whose constraint is NOT NULL UNIQUE. -/
theorem claim_C4_witness :
    ("col" : String) ≠ "" ∧
    parseSmartColumnDefinition ("col" ++ "@" ++ "text@unique") =
      .ok { Name := "col", Typ := "TEXT", Constraint := "NOT NULL UNIQUE", ID := false } :=
  ⟨by decide, by
    have h := (claim_C4_main "col" "text@unique"
      { colType := "TEXT", id := false, null := false, unique := true }
      (by decide) (by decide) (by rfl) (by rfl)).2 (by decide)
    simpa using h⟩

theorem option_some_or {α : Type} (a : α) (x : Option α) : (some a).or x = some a := rfl

theorem getLast?_cons_or {α : Type} : ∀ (l : List α) (a : α),
    (a :: l).getLast? = (l.getLast?).or (some a)
  | [], _ => rfl
  | b :: t, a => by
    rw [List.getLast?_cons_cons, getLast?_cons_or t b]
    cases t.getLast? <;> rfl

theorem foldl_updateSca_Columns : ∀ (cols : List column) (acc : scaffoldCommandArgs),
    (cols.foldl updateSca acc).Columns = acc.Columns ++ cols
  | [], acc => by simp
  | c :: cols, acc => by
    rw [List.foldl_cons, foldl_updateSca_Columns cols (updateSca acc c)]
    simp [updateSca]

theorem foldl_updateSca_NonID : ∀ (cols : List column) (acc : scaffoldCommandArgs),
    (cols.foldl updateSca acc).NonIDColumns =
      acc.NonIDColumns ++ cols.filter (fun c => !c.ID)
  | [], acc => by simp
  | c :: cols, acc => by
    rw [List.foldl_cons, foldl_updateSca_NonID cols (updateSca acc c), List.filter_cons]
    cases hc : c.ID <;> simp [updateSca, hc]

theorem foldl_updateSca_IDColumn : ∀ (cols : List column) (acc : scaffoldCommandArgs),
    (cols.foldl updateSca acc).IDColumn =
      ((cols.filter (fun c => c.ID)).getLast?).or acc.IDColumn
  | [], acc => by simp
  | c :: cols, acc => by
    rw [List.foldl_cons, foldl_updateSca_IDColumn cols (updateSca acc c), List.filter_cons]
    cases hc : c.ID
    · simp [updateSca, hc]
    · simp [updateSca, hc, getLast?_cons_or, Option.or_assoc, option_some_or]

/-- Proof-side helper: parse each column string in order, stopping at the
first error (the pure sequencing underlying the column loop). -/
def parseColumnsList (idCol : String) : List String → Except GoError (List column)
  | [] => .ok []
  | a :: l =>
    match parseColumnDefinition idCol a with
    | .error e => .error e
    | .ok c =>
      match parseColumnsList idCol l with
      | .error e => .error e
      | .ok cols => .ok (c :: cols)

theorem parseColumnsLoop_eq (idCol : String) : ∀ (l : List String) (acc : scaffoldCommandArgs),
    parseColumnsLoop idCol acc l =
      Except.map (fun cols => cols.foldl updateSca acc) (parseColumnsList idCol l)
  | [], _ => rfl
  | a :: l, acc => by
    simp only [parseColumnsLoop, parseColumnsList]
    cases hp : parseColumnDefinition idCol a with
    | error e => rfl
    | ok c =>
      show parseColumnsLoop idCol (updateSca acc c) l =
        Except.map (fun cols => List.foldl updateSca acc cols)
          (match parseColumnsList idCol l with
            | .error e => .error e
            | .ok cols => .ok (c :: cols))
      rw [parseColumnsLoop_eq idCol l (updateSca acc c)]
      cases hm : parseColumnsList idCol l with
      | error e => rfl
      | ok cols => rfl

/-- Inversion of a successful parseScaffoldCommandArgs run: the column-list
fields are exactly the filters of the parsed column sequence, with the
identifier reference holding the last parsed column whose ID flag is set. -/
theorem parseScaffold_ok_fields {opts : cliOptions} {args : List String}
    {sca : scaffoldCommandArgs}
    (h : parseScaffoldCommandArgs opts args = some (.ok sca)) :
    sca.NonIDColumns = sca.Columns.filter (fun c => !c.ID) ∧
    sca.IDColumn = (sca.Columns.filter (fun c => c.ID)).getLast? := by
  cases args with
  | nil => simp [parseScaffoldCommandArgs] at h
  | cons a0 colArgs =>
    simp only [parseScaffoldCommandArgs] at h
    split at h
    · split at h
      · simp at h
      · split at h
        · split at h
          · rw [Option.some_inj] at h
            rw [parseColumnsLoop_eq] at h
            cases hm : parseColumnsList opts.idColumn colArgs with
            | error e => rw [hm] at h; simp [Except.map] at h
            | ok cols =>
              rw [hm] at h
              simp only [Except.map] at h
              have hsca := (Except.ok.inj h).symm
              subst hsca
              rw [foldl_updateSca_Columns, foldl_updateSca_NonID, foldl_updateSca_IDColumn]
              simp
          · simp at h
        · simp at h
    · simp at h

/-- The result of parsing a/b with the two columns at-id and id:INTEGER under
default options: both parsed columns carry ID = true, yet parsing succeeds. -/
def scaTwoIds : scaffoldCommandArgs :=
  { Table := "b", SingularEntity := "A", PluralEntity := "B",
    IDColumn := some { Name := "id", Typ := "INTEGER", Constraint := "", ID := true },
    Columns := [{ Name := "id", Typ := "INTEGER", Constraint := "PRIMARY KEY", ID := true },
                { Name := "id", Typ := "INTEGER", Constraint := "", ID := true }],
    NonIDColumns := [], LongestName := 2, LongestType := 7,
    NoExistsClause := false, OrderBy := "", NoReturningClause := false,
    Output := 3 }

/-- Claim C1, counterexample: the argument list a/b, at-id, id:INTEGER parses
two columns that both qualify as the identifier column, and the parser
accepts it (result ok) instead of rejecting or flagging it; the parsed list
holds two columns with the identifier flag set. -/
theorem claim_C1_counterexample :
    parseScaffoldCommandArgs defaultOptions ["a/b", "@id", "id:INTEGER"] =
      some (.ok scaTwoIds) ∧
    (scaTwoIds.Columns.filter (fun c => c.ID)).length = 2 := by
  exact ⟨by rfl, by rfl⟩

/-- Claim C1 (amended): the column loop of parseScaffoldCommandArgs performs
no cross-column check at all: it succeeds exactly when every individual
column definition parses, so a column list yielding more than one
identifier column is silently accepted rather than rejected or flagged
(the identifier reference then keeps the last qualifying column, see the
claim C9 theorem). -/
theorem claim_C1_main (idCol : String) (sca : scaffoldCommandArgs) (args : List String) :
    (parseColumnsLoop idCol sca args).isOk =
      args.all (fun a => (parseColumnDefinition idCol a).isOk) := by
  induction args generalizing sca with
  | nil => rfl
  | cons a rest ih =>
    simp only [parseColumnsLoop, List.all_cons]
    cases hp : parseColumnDefinition idCol a with
    | error e => simp [Except.isOk, Except.toBool]
    | ok col =>
      show (parseColumnsLoop idCol (updateSca sca col) rest).isOk =
        ((Except.ok col).isOk && rest.all fun a => (parseColumnDefinition idCol a).isOk)
      rw [ih (updateSca sca col)]
      simp [Except.isOk, Except.toBool]

/-- Claim C8: the program panics on the accepted entity name a_/b.  The name
passes validation (both halves of the slash split are non-empty), but
upperCamelCase splits the singular half a_ on underscores into a and the
empty string, and capitalize indexes rune 0 of the empty string, out of
range; the panic is modelled as none. -/
theorem claim_C8_main :
    capitalize "" = none ∧
    upperCamelCase "a_" = none ∧
    parseScaffoldCommandArgs defaultOptions ["a_/b"] = none := by
  exact ⟨by rfl, by rfl, by rfl⟩

/-- Claim C9: when more than one parsed column qualifies as the identifier
column, the identifier reference holds the last qualifying column in input
order, every qualifying column is excluded from the non-identifier list
(which is exactly the filter of the non-qualifying columns, the list the
INSERT and UPDATE SET column lists are rendered from), and hence no
identifier-flagged column is a member of that list. -/
theorem claim_C9_main (opts : cliOptions) (args : List String) (sca : scaffoldCommandArgs)
    (h : parseScaffoldCommandArgs opts args = some (.ok sca))
    (_hmult : 1 < (sca.Columns.filter (fun c => c.ID)).length) :
    sca.IDColumn = (sca.Columns.filter (fun c => c.ID)).getLast? ∧
    sca.NonIDColumns = sca.Columns.filter (fun c => !c.ID) ∧
    ∀ c ∈ sca.Columns, c.ID = true → c ∉ sca.NonIDColumns := by
  obtain ⟨hnon, hid⟩ := parseScaffold_ok_fields h
  refine ⟨hid, hnon, ?_⟩
  intro c _ hcid hmem
  rw [hnon, List.mem_filter] at hmem
  rw [hcid] at hmem
  simp at hmem

/-- Witness for claim C9: the theorem applied at the concrete argument list
a/b, at-id, id:INTEGER whose two columns both qualify as identifier. -/
theorem claim_C9_witness :
    1 < (scaTwoIds.Columns.filter (fun c => c.ID)).length ∧
    scaTwoIds.IDColumn = (scaTwoIds.Columns.filter (fun c => c.ID)).getLast? ∧
    scaTwoIds.NonIDColumns = scaTwoIds.Columns.filter (fun c => !c.ID) :=
  ⟨by decide,
    (claim_C9_main defaultOptions ["a/b", "@id", "id:INTEGER"] scaTwoIds
      (by rfl) (by decide)).1,
    (claim_C9_main defaultOptions ["a/b", "@id", "id:INTEGER"] scaTwoIds
      (by rfl) (by decide)).2.1⟩

theorem suffix_of_append_length_le {α : Type} {u a b : List α}
    (h : u <:+ a ++ b) (hl : b.length ≤ u.length) : b <:+ u := by
  have hp : u.reverse <+: (a ++ b).reverse := List.reverse_prefix.mpr h
  rw [List.reverse_append] at hp
  have hb : b.reverse <+: b.reverse ++ a.reverse := List.prefix_append _ _
  have := List.prefix_of_prefix_length_le hb hp (by simpa using hl)
  exact List.reverse_prefix.mp this

theorem strEndsWith_append {a b t : String} (h : strEndsWith b t = true) :
    strEndsWith (a ++ b) t = true := by
  rw [strEndsWith, List.isSuffixOf_iff_suffix] at h ⊢
  exact List.IsSuffix.trans h (List.suffix_append a.data b.data)

theorem strStartsWith_append {a b t : String} (h : strStartsWith a t = true) :
    strStartsWith (a ++ b) t = true := by
  rw [strStartsWith, List.isPrefixOf_iff_prefix] at h ⊢
  exact h.trans (List.prefix_append a.data b.data)

theorem strEndsWith_append_false {a b t : String}
    (hlen : b.data.length ≤ t.data.length) (hnot : ¬ b.data <:+ t.data) :
    strEndsWith (a ++ b) t = false := by
  rw [strEndsWith, Bool.eq_false_iff]
  intro hs
  rw [List.isSuffixOf_iff_suffix] at hs
  exact hnot (suffix_of_append_length_le hs hlen)

/-- Claim C6: whenever the output selector includes queries, the rendered
query block is exactly the spec-side template list in the fixed order Get,
List, Create, Delete, Update joined by blank lines (Get, Delete and Update
present exactly when an identifier column exists, List and Create always),
followed by the block's trailing newlines. -/
theorem claim_C6_main (args : scaffoldCommandArgs)
    (h : args.Output &&& outputQueries ≠ 0) :
    (scaffoldQueries args =
      joinTemplates "\n\n" (queryTemplatesSpec args) ++
        (if args.IDColumn.isSome then "\n\n" else "\n")) ∧
    strStartsWith (writeListQuery args) "-- name: List" = true ∧
    strStartsWith (writeCreateQuery args) "-- name: Create" = true ∧
    (∀ idc : column,
      strStartsWith (writeGetQuery args idc) "-- name: Get" = true ∧
      strStartsWith (writeDeleteQuery args idc) "-- name: Delete" = true ∧
      strStartsWith (writeUpdateQuery args idc) "-- name: Update" = true) := by
  have hnl : ∀ X : String, "\n" ++ ("\n" ++ X) = "\n\n" ++ X := by
    intro X
    rw [← String.append_assoc]
    rfl
  refine ⟨?_, ?_, ?_, ?_⟩
  · rw [scaffoldQueries, if_pos h]
    cases hid : args.IDColumn with
    | none => simp [queryTemplatesSpec, joinTemplates, hid, String.append_assoc]
    | some idc => simp [queryTemplatesSpec, joinTemplates, hid, String.append_assoc, hnl]
  · rw [writeListQuery]
    by_cases hob : args.OrderBy = "" <;> simp only [hob, if_true, if_false, if_pos, if_neg,
      not_false_iff] <;> repeat' apply strStartsWith_append
    all_goals decide
  · rw [writeCreateQuery]
    repeat' apply strStartsWith_append
    decide
  · intro idc
    refine ⟨?_, ?_, ?_⟩
    · rw [writeGetQuery]
      repeat' apply strStartsWith_append
      decide
    · rw [writeDeleteQuery]
      repeat' apply strStartsWith_append
      decide
    · rw [writeUpdateQuery]
      repeat' apply strStartsWith_append
      decide

/-- Witness for claim C6: the theorem applied at the parsed arguments for
author/authors with columns at-id and name:text, full output. -/
theorem claim_C6_witness :
    (match parseScaffoldCommandArgs defaultOptions ["author/authors", "@id", "name:text"] with
      | some (.ok sca) =>
          sca.Output &&& outputQueries ≠ 0 ∧
          scaffoldQueries sca =
            joinTemplates "\n\n" (queryTemplatesSpec sca) ++
              (if sca.IDColumn.isSome then "\n\n" else "\n")
      | _ => False) := by
  exact ⟨by decide, (claim_C6_main _ (by decide)).1⟩

/-- Claim C7: for every ScaffoldArgs and identifier column, the update query
template begins with its header line whose mode label is :exec when the
returning clause is omitted and :one otherwise, and the rendered statement
ends with RETURNING *; exactly when the returning clause is not omitted. -/
theorem claim_C7_main (args : scaffoldCommandArgs) (idc : column) :
    (∃ rest : String, writeUpdateQuery args idc =
      "-- name: Update" ++ args.SingularEntity ++ " " ++
        (if args.NoReturningClause then ":exec" else ":one") ++ "\n" ++ rest) ∧
    strEndsWith (writeUpdateQuery args idc) "RETURNING *;" = !args.NoReturningClause := by
  constructor
  · refine ⟨"UPDATE " ++ args.Table ++ "\n" ++ "SET\n" ++ updateSetLines args.NonIDColumns ++
      "WHERE " ++ idc.Name ++ " = ?" ++
      (if !args.NoReturningClause then "\nRETURNING *;" else ";"), ?_⟩
    have hupd : ∀ X : String, "\n" ++ ("UPDATE " ++ X) = "\nUPDATE " ++ X := by
      intro X
      rw [← String.append_assoc]
      rfl
    simp [writeUpdateQuery, String.append_assoc, hupd]
  · cases hn : args.NoReturningClause with
    | false =>
      simp only [writeUpdateQuery, hn, Bool.not_false, if_neg, if_pos]
      exact strEndsWith_append (by decide)
    | true =>
      simp only [writeUpdateQuery, hn, Bool.not_true, if_pos, if_neg]
      rw [String.append_assoc]
      exact strEndsWith_append_false (by decide) (by decide)

end Sqlcup
